import Mathlib

/-
Shallow embedding of PvCmd.py (BruKitchen): a thin Python wrapper around the
external pvcmd executable of the ParaVision suite.  Every operation of the
wrapper shells out to the executable; we model each operation by the list of
argument lists it passes to the executable (its invocation trace), by explicit
oracles for the pieces of the outside world it consults (filesystem, process
environment, subprocess results), and by an explicit error type standing for
the Python exceptions it raises.
-/

set_option autoImplicit false

namespace PvCmdModel

/-- One invocation of the external pvcmd executable: the list of arguments
passed after the executable path. -/
abbrev Inv := List String

/-- The Python exceptions raised by PvCmd.py. -/
inductive PvError where
  | valueError (msg : String)
  | attributeError (msg : String)
  | keyError (key : String)
  | notImplementedError
  deriving DecidableEq, Repr

/-- Model of the filesystem facts the wrapper consults: which paths are
directories, which are regular files, and which are executable
(os.path.isdir, os.path.isfile, os.access with X_OK). -/
structure FS where
  dirs : List String
  files : List String
  execs : List String
  deriving DecidableEq, Repr

/-- os.path.isdir -/
def FS.isDir (fs : FS) (p : String) : Bool := fs.dirs.contains p

/-- os.path.isfile -/
def FS.isFile (fs : FS) (p : String) : Bool := fs.files.contains p

/-- os.access(fpath, os.X_OK) -/
def FS.accessX (fs : FS) (p : String) : Bool := fs.execs.contains p

/-- Source helper is_exe: os.path.isfile(fpath) and os.access(fpath, os.X_OK). -/
def is_exe (fs : FS) (fpath : String) : Bool := fs.isFile fpath && fs.accessX fpath

/-- Outcome of one subprocess.Popen run of the executable: exit code, stdout
text and stderr text as returned by communicate(). -/
structure ProcResult where
  returncode : Int
  stdout : String
  stderr : String
  deriving DecidableEq, Repr

/-- Python str.strip(): the string with leading and trailing whitespace
characters removed. -/
def pyStrip (s : String) : String :=
  ⟨((s.data.dropWhile Char.isWhitespace).reverse.dropWhile Char.isWhitespace).reverse⟩

/-- PvCmd._run_pvcmd, applied to the outcome of the subprocess: the source
raises ValueError when p.returncode is truthy or len(err) is truthy, and
otherwise returns res.strip(). -/
def run_pvcmd (p : ProcResult) : Except PvError String :=
  if p.returncode != 0 || p.stderr.length != 0 then
    .error (.valueError ("Error from pvcmd: " ++ p.stderr))
  else
    .ok (pyStrip p.stdout)

/-- PvApp.GetParam: self.pv._run_pvcmd(-get, self.app, param). -/
def PvApp.GetParam (app param : String) : List Inv :=
  [["-get", app, param]]

/-- PvApp.Sync: -s path when a path is given, -s self.app otherwise. -/
def PvApp.Sync (app : String) (path : Option String) : List Inv :=
  match path with
  | some p => [["-s", p]]
  | none => [["-s", app]]

/-- PvApp.SetParam: -set self.app param str(value), then self.Sync(). -/
def PvApp.SetParam {α : Type} [ToString α] (app param : String) (value : α) : List Inv :=
  [["-set", app, param, toString value]] ++ PvApp.Sync app none

/-- PvApp.Command: -a self.app -r followed by the command words, then
self.Sync(). -/
def PvApp.Command (app : String) (cmd : List String) : List Inv :=
  [["-a", app, "-r"] ++ cmd] ++ PvApp.Sync app none

/-- PvApp.CommandQuiet: -a self.app followed by the command words, then
self.Sync(). -/
def PvApp.CommandQuiet (app : String) (cmd : List String) : List Inv :=
  [["-a", app] ++ cmd] ++ PvApp.Sync app none

/-- The scan broker (class PvScan, a PvApp with appname pvScan); it holds the
path of the pvcmd executable found by its PvCmd. -/
structure PvScan where
  pvcmdPath : String
  deriving DecidableEq, Repr

/-- The dataset proxy (class PvObj): it stores the object path and the scan
broker it delegates to (fields _objpath and _pvScan). -/
structure PvObj where
  objpath : String
  pvScan : PvScan
  deriving DecidableEq, Repr

/-- PvObj.__init__: the isinstance(pvScan, PvScan) guard is enforced here by
the type of the pvScan argument; then the constructor raises AttributeError
when os.path.isdir(objpath) fails, and otherwise stores objpath and pvScan. -/
def PvObj.init (objpath : String) (pvScan : PvScan) (fs : FS) : Except PvError PvObj :=
  if !fs.isDir objpath then
    .error (.attributeError ("invalid object path: " ++ objpath))
  else
    .ok ⟨objpath, pvScan⟩

/-- A Python value handed to PvObj.__eq__ or to PvScan.SetObj: a PvObj, an
integer, or a string. -/
inductive PyArg where
  | obj (o : PvObj)
  | int (n : Int)
  | str (s : String)
  deriving DecidableEq, Repr

/-- Python str() on a PyArg; str of a PvObj is its __str__, the object path. -/
def pyStr : PyArg → String
  | .obj o => o.objpath
  | .int n => toString n
  | .str s => s

/-- Source helper is_int: int(s) succeeds.  int() of a PvObj raises TypeError
(caught, giving False); int() of a string succeeds when the string, with
surrounding whitespace stripped, is an integer literal. -/
def is_int : PyArg → Bool
  | .obj _ => false
  | .int _ => true
  | .str s => (pyStrip s).toInt?.isSome

/-- Result of a Python rich comparison: a boolean, or NotImplemented. -/
inductive PyCmp where
  | bool (b : Bool)
  | notImplemented
  deriving DecidableEq, Repr

/-- PvObj.__eq__: path string equality against another PvObj, NotImplemented
against anything else. -/
def PvObj.eq (self : PvObj) (other : PyArg) : PyCmp :=
  match other with
  | .obj b => .bool (self.objpath == b.objpath)
  | _ => .notImplemented

/-- PvObj.__ne__: NotImplemented when __eq__ gives NotImplemented, otherwise
the boolean negation of the __eq__ result. -/
def PvObj.ne (self : PvObj) (other : PyArg) : PyCmp :=
  match PvObj.eq self other with
  | .notImplemented => .notImplemented
  | .bool b => .bool (!b)

/-- Trace of PvScan.ExpPath(): self.Command(pvDsetPath, -path, EXPNO). -/
def PvScan.ExpPathTrace : List Inv :=
  PvApp.Command "pvScan" ["pvDsetPath", "-path", "EXPNO"]

/-- PvScan.SetObj: when is_int(pvobj), checks that ExpPath() + /pdata/ +
str(pvobj) is a directory and issues pvDsetSsel quietly, raising ValueError
otherwise; for any other argument it issues pvDsetObjSel str(pvobj) quietly.
The expPath argument is the reply of the ExpPath() command consulted in the
integer branch. -/
def PvScan.SetObj (pvobj : PyArg) (expPath : String) (fs : FS) : Except PvError (List Inv) :=
  if is_int pvobj then
    if fs.isDir (expPath ++ "/pdata/" ++ pyStr pvobj) then
      .ok (PvScan.ExpPathTrace ++ PvApp.CommandQuiet "pvScan" ["pvDsetSsel", pyStr pvobj])
    else
      .error (.valueError ("PvCmd::SetObj: invalid (empty) prodid:" ++ pyStr pvobj))
  else
    .ok (PvApp.CommandQuiet "pvScan" ["pvDsetObjSel", pyStr pvobj])

/-- Trace of PvScan.SetObj applied to a PvObj (the is_int test is False, so
the pvDsetObjSel branch runs with str(pvobj), the object path). -/
def PvScan.SetObjObjTrace (o : PvObj) : List Inv :=
  PvApp.CommandQuiet "pvScan" ["pvDsetObjSel", o.objpath]

/-- PvObj.GetParam: self._pvScan.SetObj(self) then self._pvScan.GetParam(name),
with the scan broker app named pvScan. -/
def PvObj.GetParamTrace (o : PvObj) (name : String) : List Inv :=
  PvScan.SetObjObjTrace o ++ PvApp.GetParam "pvScan" name

/-- PvObj.SetParam: self._pvScan.SetObj(self) then
self._pvScan.SetParam(name, value). -/
def PvObj.SetParamTrace (o : PvObj) (name value : String) : List Inv :=
  PvScan.SetObjObjTrace o ++ PvApp.SetParam "pvScan" name value

/-- PvObj.__getattr__: raises NotImplementedError when the name starts with a
double underscore, otherwise delegates to self.GetParam(name). -/
def PvObj.getattrTrace (o : PvObj) (name : String) : Except PvError (List Inv) :=
  if name.take 2 = "__" then
    .error .notImplementedError
  else
    .ok (PvObj.GetParamTrace o name)

/-- PvObj.__setattr__: raises NotImplementedError when the name starts with a
double underscore, otherwise delegates to self.SetParam(name, value). -/
def PvObj.setattrTrace (o : PvObj) (name value : String) : Except PvError (List Inv) :=
  if name.take 2 = "__" then
    .error .notImplementedError
  else
    .ok (PvObj.SetParamTrace o name value)

/-- PvObj.Adjustment: rejects an adjustment outside RCVR, FREQ, SHIM, TRANSM
and a category outside Standard, Current with ValueError before any call to
the external tool; otherwise issues pvStartGsauto -cmd adjustment_category
through Command and then syncs on the object path. -/
def PvObj.Adjustment (o : PvObj) (adjustment : String) (category : String) :
    Except PvError (List Inv) :=
  if (["RCVR", "FREQ", "SHIM", "TRANSM"].contains adjustment) = false then
    .error (.valueError "Adjustment must be RCVR, FREQ, or SHIM")
  else if (["Standard", "Current"].contains category) = false then
    .error (.valueError "Adjustment Category must be Standard or Current")
  else
    .ok (PvApp.Command "pvScan" ["pvStartGsauto", "-cmd", adjustment ++ "_" ++ category]
         ++ PvApp.Sync "pvScan" (some o.objpath))

/-- PvObj.Undo: rejects a what argument other than Scan or Reco with
ValueError before any call to the external tool; otherwise issues
pvDsetUndo what objpath -Control -Alt through Command. -/
def PvObj.Undo (o : PvObj) (what : String) : Except PvError (List Inv) :=
  if what != "Scan" && what != "Reco" then
    .error (.valueError "Undo: what must be Scan or Reco")
  else
    .ok (PvApp.Command "pvScan" ["pvDsetUndo", what, o.objpath, "-Control", "-Alt"])

/-- PvCmd.__init__, executable location: the installation root is the value of
the XWINNMRHOME environment variable when set and /opt/PV5.1 otherwise; the
executable is root + /prog/bin/scripts/pvcmd, replaced by the local testing
fallback ./pvcmd.tester when that path is not an executable file. -/
def PvCmd.findPvcmd (env : Option String) (fs : FS) : String :=
  let root := match env with
    | some v => v
    | none => "/opt/PV5.1"
  let path := root ++ "/prog/bin/scripts/pvcmd"
  if is_exe fs path then path else "./pvcmd.tester"

/-- The fixed list of keyword argument names PvScan.CreateStudy accepts. -/
def validkeys : List String :=
  ["studyname", "subjectid", "subjectname", "birthdate", "type", "gender",
   "remarks", "name", "studyloc", "coil", "entry", "position",
   "weight", "referral", "purpose"]

/-- Dictionary lookup kwargs[key] as an Option (keyword arguments are a
finite map; we carry them as an association list in insertion order, the
iteration order of a Python dict). -/
def lookupKw (key : String) (kwargs : List (String × String)) : Option String :=
  (kwargs.find? (fun p => p.1 == key)).map Prod.snd

/-- PvScan.CreateStudy: kwargs[subjectid] raises KeyError when absent; an
empty subjectid raises ValueError; then every pair whose key is not in
validkeys is skipped (the source prints a diagnostic and continues), the rest
contribute -key and str(value) in iteration order, and the pvDsetCreateStudy
command is issued with those arguments. -/
def PvScan.CreateStudy (kwargs : List (String × String)) : Except PvError (List Inv) :=
  match lookupKw "subjectid" kwargs with
  | none => .error (.keyError "subjectid")
  | some sid =>
    if sid.length = 0 then
      .error (.valueError "PvCmd::CreateStudy: invalid (empty) subjectid")
    else
      let args := (kwargs.filter (fun p => validkeys.contains p.1)).flatMap
        (fun p => ["-" ++ p.1, p.2])
      .ok (PvApp.Command "pvScan" (["pvDsetCreateStudy"] ++ args))

/-- PvScan.GetObj with no index: PvObj(self.ProcPath(), self) inside a bare
try/except; an exception from the construction is swallowed and None is
returned.  The procPath argument is the reply of the ProcPath() command. -/
def PvScan.GetObjCurrent (s : PvScan) (procPath : String) (fs : FS) : Option PvObj :=
  match PvObj.init procPath s fs with
  | .ok o => some o
  | .error _ => none

/-- Python == between the possible results of GetObj (a PvObj or None), as
used by the membership test pvo in seen: two PvObj compare by path through
PvObj.__eq__, None equals None by identity, and a PvObj never equals None
(both __eq__ sides give NotImplemented, so Python falls back to identity). -/
def pyEqOpt : Option PvObj → Option PvObj → Bool
  | some a, some b => a.objpath == b.objpath
  | none, none => true
  | _, _ => false

/-- Python membership x in seen for GetObj results. -/
def pyMem (x : Option PvObj) (seen : List (Option PvObj)) : Bool :=
  seen.any (fun y => pyEqOpt x y)

/-- Oracles consulted by one PvScan.GetObjList run: the filesystem, the reply
of the ExpPath() command, the reply of the ProcPath() command once the object
at a given index is selected (index 0 is reached without reselection, because
if index is false for the Python int 0), and the reply of reading the Method
parameter of an object at a given path (none when the external call fails). -/
structure ScanEnv where
  fs : FS
  expPath : String
  procPathAt : Nat → String
  methodOf : String → Option String

/-- One run of the loop body of PvScan.GetObjList, with fuel for the
range(0,100) bound.  At index 0, GetObj(0, restore=False) skips SetObj (0 is
falsy) and builds the proxy from the current ProcPath; at a positive index,
SetObj(index) raises ValueError when ExpPath() + /pdata/ + str(index) is not
a directory, which the bare except of the loop turns into a break.  A proxy
already seen (per Python ==) breaks the loop; otherwise reading pvo.Method
falls back to the empty string on any failure (inner try/except, also when
pvo is None), and (index, pvo, method) is appended. -/
def PvScan.getObjListLoop (env : ScanEnv) (s : PvScan) :
    Nat → Nat → List (Option PvObj) → List (Nat × Option PvObj × String) →
    List (Nat × Option PvObj × String)
  | 0, _, _, acc => acc
  | fuel + 1, i, seen, acc =>
    let step : Option (Option PvObj) :=
      if i = 0 then
        some (PvScan.GetObjCurrent s (env.procPathAt 0) env.fs)
      else if env.fs.isDir (env.expPath ++ "/pdata/" ++ toString i) then
        some (PvScan.GetObjCurrent s (env.procPathAt i) env.fs)
      else
        none
    match step with
    | none => acc
    | some pvo =>
      if pyMem pvo seen then acc
      else
        let method := match pvo with
          | none => ""
          | some o => (env.methodOf o.objpath).getD ""
        PvScan.getObjListLoop env s fuel (i + 1) (seen ++ [pvo]) (acc ++ [(i, pvo, method)])

/-- PvScan.GetObjList: the list of (index, proxy, method) triples collected by
the loop over range(0,100); exceptions inside the loop are caught and only
stop the collection, they never escape. -/
def PvScan.GetObjList (env : ScanEnv) (s : PvScan) : List (Nat × Option PvObj × String) :=
  PvScan.getObjListLoop env s 100 0 [] []

/-! ## Helper lemmas -/

lemma string_length_eq_zero_iff (s : String) : s.length = 0 ↔ s = "" := by
  cases s with
  | mk data => simp [String.length, String.ext_iff]

lemma find_filter_of_imp {α : Type} (P q : α → Bool) (l : List α)
    (h : ∀ x, q x = true → P x = true) :
    (l.filter P).find? q = l.find? q := by
  induction l with
  | nil => rfl
  | cons a t ih =>
    by_cases hq : q a = true
    · have hp := h a hq
      simp [List.filter_cons, hp, List.find?_cons, hq, ih]
    · by_cases hp : P a = true <;>
        simp [List.filter_cons, hp, List.find?_cons, hq, ih]

/-! ## Theorems for the claims -/

/-- Claim C1: the command broker reconstructs argument lists correctly: for
every app name and parameter, PvApp.GetParam invokes the executable with
arguments -get app param; PvApp.SetParam with -set app param str(value)
(followed by its sync); PvApp.Sync with -s path when a path is given and
-s app otherwise; PvApp.Command with -a app -r followed by the command words
(followed by its sync); and PvApp.CommandQuiet with -a app followed by the
command words (followed by its sync). -/
theorem pvapp_reconstructs_arglists {α : Type} [ToString α] (app param path : String)
    (value : α) (cmd : List String) :
    PvApp.GetParam app param = [["-get", app, param]] ∧
    PvApp.SetParam app param value = [["-set", app, param, toString value], ["-s", app]] ∧
    PvApp.Sync app (some path) = [["-s", path]] ∧
    PvApp.Sync app none = [["-s", app]] ∧
    PvApp.Command app cmd = [["-a", app, "-r"] ++ cmd, ["-s", app]] ∧
    PvApp.CommandQuiet app cmd = [["-a", app] ++ cmd, ["-s", app]] :=
  ⟨rfl, rfl, rfl, rfl, rfl, rfl⟩

/-- Claim C2: _run_pvcmd raises a ValueError exactly when the exit code is
non-zero or the stderr output is non-empty; otherwise it returns the stdout
text with surrounding whitespace stripped. -/
theorem run_pvcmd_error_iff (p : ProcResult) :
    ((p.returncode ≠ 0 ∨ p.stderr ≠ "") →
      run_pvcmd p = .error (.valueError ("Error from pvcmd: " ++ p.stderr))) ∧
    (p.returncode = 0 → p.stderr = "" → run_pvcmd p = .ok (pyStrip p.stdout)) ∧
    ((∃ e, run_pvcmd p = .error e) ↔ (p.returncode ≠ 0 ∨ p.stderr ≠ "")) := by
  have hcond : (p.returncode != 0 || p.stderr.length != 0) = true ↔
      (p.returncode ≠ 0 ∨ p.stderr ≠ "") := by
    simp [bne_iff_ne, string_length_eq_zero_iff]
  refine ⟨fun h => ?_, fun h1 h2 => ?_, ?_⟩
  · simp [run_pvcmd, hcond.mpr h]
  · have : (p.returncode != 0 || p.stderr.length != 0) = false := by
      simp [h1, h2]
    simp [run_pvcmd, this]
  · constructor
    · rintro ⟨e, he⟩
      by_contra hne
      have : (p.returncode != 0 || p.stderr.length != 0) = false := by
        rcases not_or.mp hne with ⟨h1, h2⟩
        simp [not_not.mp h1, not_not.mp h2]
      simp [run_pvcmd, this] at he
    · intro h
      refine ⟨.valueError ("Error from pvcmd: " ++ p.stderr), ?_⟩
      simp [run_pvcmd, hcond.mpr h]

/-- Witness for claim C2 at concrete subprocess outcomes. -/
theorem run_pvcmd_error_iff_witness :
    run_pvcmd ⟨1, "out", "oops"⟩ = .error (.valueError "Error from pvcmd: oops") ∧
    run_pvcmd ⟨0, " ok \n", ""⟩ = .ok "ok" :=
  ⟨(run_pvcmd_error_iff ⟨1, "out", "oops"⟩).1 (Or.inl (by decide)),
   (run_pvcmd_error_iff ⟨0, " ok \n", ""⟩).2.1 rfl rfl⟩

/-- Claim C5: constructing a PvObj from a path that is not an existing
directory raises an error; from an existing directory path and a PvScan
instance it succeeds and stores the path and the scan broker unchanged. -/
theorem pvobj_init_spec (objpath : String) (s : PvScan) (fs : FS) :
    (fs.isDir objpath = false →
      PvObj.init objpath s fs =
        .error (.attributeError ("invalid object path: " ++ objpath))) ∧
    (fs.isDir objpath = true → PvObj.init objpath s fs = .ok ⟨objpath, s⟩) := by
  constructor <;> intro h <;> simp [PvObj.init, h]

/-- Witness for claim C5 at a concrete filesystem. -/
theorem pvobj_init_spec_witness :
    PvObj.init "/data/s/3/pdata/1" ⟨"/opt/PV5.1/prog/bin/scripts/pvcmd"⟩
        ⟨["/data/s/3/pdata/1"], [], []⟩ =
      .ok ⟨"/data/s/3/pdata/1", ⟨"/opt/PV5.1/prog/bin/scripts/pvcmd"⟩⟩ ∧
    PvObj.init "/nowhere" ⟨"/opt/PV5.1/prog/bin/scripts/pvcmd"⟩
        ⟨["/data/s/3/pdata/1"], [], []⟩ =
      .error (.attributeError "invalid object path: /nowhere") :=
  ⟨(pvobj_init_spec "/data/s/3/pdata/1" ⟨"/opt/PV5.1/prog/bin/scripts/pvcmd"⟩
      ⟨["/data/s/3/pdata/1"], [], []⟩).2 (by decide),
   (pvobj_init_spec "/nowhere" ⟨"/opt/PV5.1/prog/bin/scripts/pvcmd"⟩
      ⟨["/data/s/3/pdata/1"], [], []⟩).1 (by decide)⟩

/-- Claim C8: equality between two dataset proxies is path string equality,
__ne__ is its boolean negation, and comparison against a non-PvObj value
(an integer or a string) yields NotImplemented for both. -/
theorem pvobj_equality_spec (a b : PvObj) (n : Int) (s : String) :
    (PvObj.eq a (.obj b) = .bool true ↔ a.objpath = b.objpath) ∧
    (PvObj.eq a (.obj b) = .bool false ↔ a.objpath ≠ b.objpath) ∧
    (∀ r, PvObj.eq a (.obj b) = .bool r → PvObj.ne a (.obj b) = .bool (!r)) ∧
    PvObj.eq a (.int n) = .notImplemented ∧
    PvObj.eq a (.str s) = .notImplemented ∧
    PvObj.ne a (.int n) = .notImplemented ∧
    PvObj.ne a (.str s) = .notImplemented := by
  refine ⟨?_, ?_, ?_, rfl, rfl, rfl, rfl⟩
  · simp [PvObj.eq]
  · simp [PvObj.eq]
  · intro r hr
    simp [PvObj.ne, hr]

/-- Witness for claim C8 at concrete proxies. -/
theorem pvobj_equality_spec_witness :
    PvObj.eq ⟨"/a/1/pdata/1", ⟨"p"⟩⟩ (.obj ⟨"/a/1/pdata/1", ⟨"q"⟩⟩) = .bool true ∧
    PvObj.ne ⟨"/a/1/pdata/1", ⟨"p"⟩⟩ (.obj ⟨"/a/2/pdata/1", ⟨"p"⟩⟩) = .bool true ∧
    PvObj.eq ⟨"/a/1/pdata/1", ⟨"p"⟩⟩ (.str "/a/1/pdata/1") = .notImplemented := by
  refine ⟨?_, ?_, ?_⟩
  · exact (pvobj_equality_spec ⟨"/a/1/pdata/1", ⟨"p"⟩⟩ ⟨"/a/1/pdata/1", ⟨"q"⟩⟩ 0 "").1.mpr rfl
  · have := (pvobj_equality_spec ⟨"/a/1/pdata/1", ⟨"p"⟩⟩ ⟨"/a/2/pdata/1", ⟨"p"⟩⟩ 0 "").2.2.1
      false ((pvobj_equality_spec ⟨"/a/1/pdata/1", ⟨"p"⟩⟩ ⟨"/a/2/pdata/1", ⟨"p"⟩⟩ 0 "").2.1.mpr
        (by decide))
    simpa using this
  · exact (pvobj_equality_spec ⟨"/a/1/pdata/1", ⟨"p"⟩⟩ ⟨"/a/1/pdata/1", ⟨"p"⟩⟩ 0
      "/a/1/pdata/1").2.2.2.2.1

/-- Claim C9: the installation root is the XWINNMRHOME environment value when
set and /opt/PV5.1 otherwise; the executable is root + /prog/bin/scripts/pvcmd,
and when that path is not an executable file the local testing fallback
./pvcmd.tester is used instead. -/
theorem pvcmd_location_spec (v : String) (fs : FS) :
    (is_exe fs (v ++ "/prog/bin/scripts/pvcmd") = true →
      PvCmd.findPvcmd (some v) fs = v ++ "/prog/bin/scripts/pvcmd") ∧
    (is_exe fs (v ++ "/prog/bin/scripts/pvcmd") = false →
      PvCmd.findPvcmd (some v) fs = "./pvcmd.tester") ∧
    (is_exe fs "/opt/PV5.1/prog/bin/scripts/pvcmd" = true →
      PvCmd.findPvcmd none fs = "/opt/PV5.1/prog/bin/scripts/pvcmd") ∧
    (is_exe fs "/opt/PV5.1/prog/bin/scripts/pvcmd" = false →
      PvCmd.findPvcmd none fs = "./pvcmd.tester") := by
  refine ⟨fun h => ?_, fun h => ?_, fun h => ?_, fun h => ?_⟩ <;>
    simp [PvCmd.findPvcmd, h]

/-- Witness for claim C9 at concrete environments and filesystems. -/
theorem pvcmd_location_spec_witness :
    PvCmd.findPvcmd (some "/opt/PV6") ⟨[], ["/opt/PV6/prog/bin/scripts/pvcmd"],
      ["/opt/PV6/prog/bin/scripts/pvcmd"]⟩ = "/opt/PV6/prog/bin/scripts/pvcmd" ∧
    PvCmd.findPvcmd none ⟨[], [], []⟩ = "./pvcmd.tester" :=
  ⟨(pvcmd_location_spec "/opt/PV6" ⟨[], ["/opt/PV6/prog/bin/scripts/pvcmd"],
      ["/opt/PV6/prog/bin/scripts/pvcmd"]⟩).1 (by decide),
   (pvcmd_location_spec "x" ⟨[], [], []⟩).2.2.2 (by decide)⟩

/-- Claim C6: Adjustment raises a ValueError, returning no invocation trace,
whenever the adjustment is outside the set RCVR, FREQ, SHIM, TRANSM or the
category is outside Standard, Current; inside both sets it issues the
pvStartGsauto command with -cmd adjustment_category and then a sync on the
object path. -/
theorem adjustment_spec (o : PvObj) (adj cat : String) :
    (adj ∉ (["RCVR", "FREQ", "SHIM", "TRANSM"] : List String) →
      ∃ m, PvObj.Adjustment o adj cat = .error (.valueError m)) ∧
    (adj ∈ (["RCVR", "FREQ", "SHIM", "TRANSM"] : List String) →
      cat ∉ (["Standard", "Current"] : List String) →
      ∃ m, PvObj.Adjustment o adj cat = .error (.valueError m)) ∧
    (adj ∈ (["RCVR", "FREQ", "SHIM", "TRANSM"] : List String) →
      cat ∈ (["Standard", "Current"] : List String) →
      PvObj.Adjustment o adj cat =
        .ok [["-a", "pvScan", "-r", "pvStartGsauto", "-cmd", adj ++ "_" ++ cat],
             ["-s", "pvScan"], ["-s", o.objpath]]) := by
  refine ⟨fun h => ?_, fun h1 h2 => ?_, fun h1 h2 => ?_⟩
  · have hc : ¬adj = "RCVR" ∧ ¬adj = "FREQ" ∧ ¬adj = "SHIM" ∧ ¬adj = "TRANSM" := by
      simpa using h
    exact ⟨"Adjustment must be RCVR, FREQ, or SHIM", by simp [PvObj.Adjustment, hc]⟩
  · have h1' : adj = "RCVR" ∨ adj = "FREQ" ∨ adj = "SHIM" ∨ adj = "TRANSM" := by
      simpa using h1
    have hc2 : ¬cat = "Standard" ∧ ¬cat = "Current" := by
      simpa using h2
    refine ⟨"Adjustment Category must be Standard or Current", ?_⟩
    rcases h1' with h | h | h | h <;> subst h <;> simp [PvObj.Adjustment, hc2]
  · have h1' : adj = "RCVR" ∨ adj = "FREQ" ∨ adj = "SHIM" ∨ adj = "TRANSM" := by
      simpa using h1
    have h2' : cat = "Standard" ∨ cat = "Current" := by
      simpa using h2
    rcases h1' with h | h | h | h <;> rcases h2' with h' | h' <;> subst h <;> subst h' <;>
      simp [PvObj.Adjustment, PvApp.Command, PvApp.Sync]

/-- Witness for claim C6 at concrete arguments. -/
theorem adjustment_spec_witness :
    PvObj.Adjustment ⟨"/a/1/pdata/1", ⟨"p"⟩⟩ "SHIM" "Current" =
      .ok [["-a", "pvScan", "-r", "pvStartGsauto", "-cmd", "SHIM_Current"],
           ["-s", "pvScan"], ["-s", "/a/1/pdata/1"]] ∧
    (∃ m, PvObj.Adjustment ⟨"/a/1/pdata/1", ⟨"p"⟩⟩ "GAIN" "Standard" =
      .error (.valueError m)) ∧
    (∃ m, PvObj.Adjustment ⟨"/a/1/pdata/1", ⟨"p"⟩⟩ "FREQ" "Other" =
      .error (.valueError m)) :=
  ⟨(adjustment_spec ⟨"/a/1/pdata/1", ⟨"p"⟩⟩ "SHIM" "Current").2.2 (by decide) (by decide),
   (adjustment_spec ⟨"/a/1/pdata/1", ⟨"p"⟩⟩ "GAIN" "Standard").1 (by decide),
   (adjustment_spec ⟨"/a/1/pdata/1", ⟨"p"⟩⟩ "FREQ" "Other").2.1 (by decide) (by decide)⟩

/-- Claim C7: Undo raises a ValueError, returning no invocation trace, for
every what argument other than Scan and Reco; for those two it issues the
pvDsetUndo command with the value and the object path (and the -Control -Alt
switches of the source). -/
theorem undo_spec (o : PvObj) (what : String) :
    (what ≠ "Scan" → what ≠ "Reco" →
      ∃ m, PvObj.Undo o what = .error (.valueError m)) ∧
    (what = "Scan" ∨ what = "Reco" →
      PvObj.Undo o what =
        .ok [["-a", "pvScan", "-r", "pvDsetUndo", what, o.objpath, "-Control", "-Alt"],
             ["-s", "pvScan"]]) := by
  constructor
  · intro h1 h2
    have hc : (what != "Scan" && what != "Reco") = true := by
      simp [bne_iff_ne, h1, h2]
    exact ⟨"Undo: what must be Scan or Reco", by simp [PvObj.Undo, hc]⟩
  · intro h
    have hc : (what != "Scan" && what != "Reco") = false := by
      rcases h with h | h <;> simp [h]
    simp [PvObj.Undo, hc, PvApp.Command, PvApp.Sync]

/-- Witness for claim C7 at concrete arguments. -/
theorem undo_spec_witness :
    PvObj.Undo ⟨"/a/1/pdata/1", ⟨"p"⟩⟩ "Reco" =
      .ok [["-a", "pvScan", "-r", "pvDsetUndo", "Reco", "/a/1/pdata/1",
            "-Control", "-Alt"], ["-s", "pvScan"]] ∧
    (∃ m, PvObj.Undo ⟨"/a/1/pdata/1", ⟨"p"⟩⟩ "Everything" = .error (.valueError m)) :=
  ⟨(undo_spec ⟨"/a/1/pdata/1", ⟨"p"⟩⟩ "Reco").2 (Or.inr rfl),
   (undo_spec ⟨"/a/1/pdata/1", ⟨"p"⟩⟩ "Everything").1 (by decide) (by decide)⟩

/-- Claim C10: selection before access: SetObj on a PvObj always issues the
pvDsetObjSel selection (the is_int branch is never taken for a PvObj), the
GetParam trace of a proxy is the selection invocations followed by the -get
invocation, the SetParam trace is the selection invocations followed by the
-set invocation (and its sync), and the attribute read and write hooks
delegate to GetParam and SetParam for every non-dunder name. -/
theorem selection_before_access (o : PvObj) (name value expPath : String) (fs : FS) :
    PvScan.SetObj (.obj o) expPath fs = .ok (PvScan.SetObjObjTrace o) ∧
    PvObj.GetParamTrace o name =
      [["-a", "pvScan", "pvDsetObjSel", o.objpath], ["-s", "pvScan"],
       ["-get", "pvScan", name]] ∧
    PvObj.SetParamTrace o name value =
      [["-a", "pvScan", "pvDsetObjSel", o.objpath], ["-s", "pvScan"],
       ["-set", "pvScan", name, value], ["-s", "pvScan"]] ∧
    (name.take 2 ≠ "__" →
      PvObj.getattrTrace o name = .ok (PvObj.GetParamTrace o name) ∧
      PvObj.setattrTrace o name value = .ok (PvObj.SetParamTrace o name value)) := by
  refine ⟨rfl, rfl, rfl, fun h => ⟨?_, ?_⟩⟩ <;>
    simp [PvObj.getattrTrace, PvObj.setattrTrace, h]

/-- Witness for claim C10 at a concrete proxy and parameter name. -/
theorem selection_before_access_witness :
    PvObj.GetParamTrace ⟨"/a/1/pdata/1", ⟨"p"⟩⟩ "RG" =
      [["-a", "pvScan", "pvDsetObjSel", "/a/1/pdata/1"], ["-s", "pvScan"],
       ["-get", "pvScan", "RG"]] ∧
    PvObj.getattrTrace ⟨"/a/1/pdata/1", ⟨"p"⟩⟩ "RG" =
      .ok (PvObj.GetParamTrace ⟨"/a/1/pdata/1", ⟨"p"⟩⟩ "RG") :=
  ⟨(selection_before_access ⟨"/a/1/pdata/1", ⟨"p"⟩⟩ "RG" "110" "/a/1" ⟨[], [], []⟩).2.1,
   ((selection_before_access ⟨"/a/1/pdata/1", ⟨"p"⟩⟩ "RG" "110" "/a/1"
      ⟨[], [], []⟩).2.2.2 (by decide)).1⟩

lemma lookup_subjectid_filter (kwargs : List (String × String)) :
    lookupKw "subjectid" (kwargs.filter (fun p => validkeys.contains p.1)) =
      lookupKw "subjectid" kwargs := by
  unfold lookupKw
  rw [find_filter_of_imp]
  intro x hx
  have hx' : x.1 = "subjectid" := by simpa using hx
  simp [hx', validkeys]

lemma filter_valid_idem (kwargs : List (String × String)) :
    (kwargs.filter (fun p => validkeys.contains p.1)).filter
        (fun p => validkeys.contains p.1) =
      kwargs.filter (fun p => validkeys.contains p.1) := by
  simp [List.filter_filter]

/-- Counterexample to claim C3 as stated: a CreateStudy call whose keyword
arguments include the key bogus, which is outside the fixed list of valid
keys, raises no error; the invalid key is skipped and the pvDsetCreateStudy
command is issued without it. -/
theorem createstudy_bad_key_no_error :
    PvScan.CreateStudy [("subjectid", "mouse1"), ("bogus", "x")] =
      .ok [["-a", "pvScan", "-r", "pvDsetCreateStudy", "-subjectid", "mouse1"],
           ["-s", "pvScan"]] := by
  rfl

/-- Claim C3 amended: keyword argument keys outside the fixed valid list are
skipped (the source prints a diagnostic and continues) rather than raising, so
the call behaves exactly as if the invalid keys were absent; CreateStudy
raises only a KeyError when the subjectid keyword is missing and a ValueError
when it is empty, and otherwise issues pvDsetCreateStudy with the dashed
valid keys and their values in iteration order. -/
theorem createstudy_spec (kwargs : List (String × String)) :
    PvScan.CreateStudy kwargs =
      PvScan.CreateStudy (kwargs.filter (fun p => validkeys.contains p.1)) ∧
    (lookupKw "subjectid" kwargs = none →
      PvScan.CreateStudy kwargs = .error (.keyError "subjectid")) ∧
    (∀ sid, lookupKw "subjectid" kwargs = some sid → sid = "" →
      PvScan.CreateStudy kwargs =
        .error (.valueError "PvCmd::CreateStudy: invalid (empty) subjectid")) ∧
    (∀ sid, lookupKw "subjectid" kwargs = some sid → sid ≠ "" →
      PvScan.CreateStudy kwargs =
        .ok (PvApp.Command "pvScan" ("pvDsetCreateStudy" ::
          (kwargs.filter (fun p => validkeys.contains p.1)).flatMap
            (fun p => ["-" ++ p.1, p.2])))) := by
  refine ⟨?_, fun h => ?_, fun sid h hs => ?_, fun sid h hs => ?_⟩
  · unfold PvScan.CreateStudy
    rw [lookup_subjectid_filter]
    cases h : lookupKw "subjectid" kwargs with
    | none => rfl
    | some sid =>
      by_cases hs : sid.length = 0
      · simp [hs]
      · simp [hs, filter_valid_idem]
  · simp [PvScan.CreateStudy, h]
  · have hs0 : sid.length = 0 := (string_length_eq_zero_iff sid).mpr hs
    simp [PvScan.CreateStudy, h, hs0]
  · have hs0 : ¬sid.length = 0 := fun hc => hs ((string_length_eq_zero_iff sid).mp hc)
    simp [PvScan.CreateStudy, h, hs0]

/-- Witness for claim C3 amended, at concrete keyword argument lists. -/
theorem createstudy_spec_witness :
    PvScan.CreateStudy [("name", "test")] = .error (.keyError "subjectid") ∧
    PvScan.CreateStudy [("subjectid", ""), ("coil", "head")] =
      .error (.valueError "PvCmd::CreateStudy: invalid (empty) subjectid") ∧
    PvScan.CreateStudy [("subjectid", "m1"), ("coil", "head")] =
      .ok (PvApp.Command "pvScan"
        ["pvDsetCreateStudy", "-subjectid", "m1", "-coil", "head"]) :=
  ⟨(createstudy_spec [("name", "test")]).2.1 (by decide),
   (createstudy_spec [("subjectid", ""), ("coil", "head")]).2.2.1 "" (by decide) rfl,
   (createstudy_spec [("subjectid", "m1"), ("coil", "head")]).2.2.2 "m1" (by decide)
     (by decide)⟩

lemma getObjListLoop_stop (env : ScanEnv) (s : PvScan) (fuel i : Nat)
    (seen : List (Option PvObj)) (acc : List (Nat × Option PvObj × String))
    (hi : i ≠ 0)
    (hdir : env.fs.isDir (env.expPath ++ "/pdata/" ++ toString i) = false) :
    PvScan.getObjListLoop env s (fuel + 1) i seen acc = acc := by
  simp [PvScan.getObjListLoop, hi, hdir]

lemma getObjListLoop_first (env : ScanEnv) (s : PvScan) (fuel : Nat)
    (acc : List (Nat × Option PvObj × String)) :
    PvScan.getObjListLoop env s (fuel + 1) 0 [] acc =
      PvScan.getObjListLoop env s fuel 1
        [PvScan.GetObjCurrent s (env.procPathAt 0) env.fs]
        (acc ++ [(0, PvScan.GetObjCurrent s (env.procPathAt 0) env.fs,
          (match PvScan.GetObjCurrent s (env.procPathAt 0) env.fs with
           | none => ""
           | some o => (env.methodOf o.objpath).getD ""))]) := by
  simp [PvScan.getObjListLoop, pyMem]

/-- Counterexample to claim C4 as stated: on a filesystem where the reply of
ProcPath() is not a directory, building the dataset proxy inside GetObj raises
an AttributeError, yet GetObj returns None instead of propagating it. -/
theorem getobj_swallows_proxy_error :
    PvObj.init "/d/1/pdata/1" ⟨"./pvcmd.tester"⟩ ⟨[], [], []⟩ =
      .error (.attributeError "invalid object path: /d/1/pdata/1") ∧
    PvScan.GetObjCurrent ⟨"./pvcmd.tester"⟩ "/d/1/pdata/1" ⟨[], [], []⟩ = none :=
  ⟨rfl, rfl⟩

/-- Claim C4 amended: failures are not always propagated: GetObj catches any
error raised while building the dataset proxy and returns None in its place
(propagating nothing), and GetObjList catches any error raised inside its
collection loop (such as the ValueError of SetObj at an index with no pdata
directory) and merely stops collecting, returning the entries gathered so
far. -/
theorem getobj_error_swallowing (s : PvScan) (procPath : String) (fs : FS)
    (env : ScanEnv) :
    (∀ e, PvObj.init procPath s fs = .error e →
      PvScan.GetObjCurrent s procPath fs = none) ∧
    (∀ o, PvObj.init procPath s fs = .ok o →
      PvScan.GetObjCurrent s procPath fs = some o) ∧
    (env.fs.isDir (env.expPath ++ "/pdata/" ++ toString 1) = false →
      PvScan.GetObjList env s =
        [(0, PvScan.GetObjCurrent s (env.procPathAt 0) env.fs,
          (match PvScan.GetObjCurrent s (env.procPathAt 0) env.fs with
           | none => ""
           | some o => (env.methodOf o.objpath).getD ""))]) := by
  refine ⟨fun e he => ?_, fun o ho => ?_, fun h => ?_⟩
  · simp [PvScan.GetObjCurrent, he]
  · simp [PvScan.GetObjCurrent, ho]
  · have e1 := getObjListLoop_first env s (98 + 1) []
    rw [getObjListLoop_stop env s 98 1 _ _ (by simp) h] at e1
    have e2 : PvScan.GetObjList env s =
        [] ++ [(0, PvScan.GetObjCurrent s (env.procPathAt 0) env.fs,
          (match PvScan.GetObjCurrent s (env.procPathAt 0) env.fs with
           | none => ""
           | some o => (env.methodOf o.objpath).getD ""))] := by
      unfold PvScan.GetObjList
      exact e1
    simpa using e2

/-- Witness for claim C4 amended, at a concrete environment in which the
selection of index 1 would raise. -/
theorem getobj_error_swallowing_witness :
    PvScan.GetObjCurrent ⟨"./pvcmd.tester"⟩ "/e/2/pdata/1" ⟨[], [], []⟩ = none ∧
    PvScan.GetObjList ⟨⟨[], [], []⟩, "/e/2", fun _ => "/e/2/pdata/1", fun _ => none⟩
        ⟨"./pvcmd.tester"⟩ = [(0, none, "")] :=
  ⟨(getobj_error_swallowing ⟨"./pvcmd.tester"⟩ "/e/2/pdata/1" ⟨[], [], []⟩
      ⟨⟨[], [], []⟩, "/e/2", fun _ => "/e/2/pdata/1", fun _ => none⟩).1
      (.attributeError "invalid object path: /e/2/pdata/1") rfl,
   (getobj_error_swallowing ⟨"./pvcmd.tester"⟩ "/e/2/pdata/1" ⟨[], [], []⟩
      ⟨⟨[], [], []⟩, "/e/2", fun _ => "/e/2/pdata/1", fun _ => none⟩).2.2 (by decide)⟩

end PvCmdModel
